import Mathlib

set_option maxHeartbeats 1000000

/-!
Shallow embedding of the ingestion and analytics core of
src/dashboard_taiga.py (class TaigaAPI and the calculate_* metric
functions), together with theorems settling the specification claims.

Conventions of the embedding:
* Parsed datetimes are integers (seconds); the dateutil parse function is an
  explicit parameter of type String → Option Int, none meaning the parse
  raised.
* A Python timedelta's .days field is floor division of the second
  difference by 86400, written with Int.fdiv.
* JSON objects are structures with Option-typed fields; an absent key and a
  null value are both modelled as none.
* An HTTP interaction is an explicit value describing the response
  (status and optionally parsed body) or a transport/parse failure.
-/

namespace DashboardTaiga

/-- The status_extra_info sub-object of a raw record: an optional name. -/
structure StatusInfo where
  name : Option String
deriving DecidableEq

/-- The assigned_to_extra_info sub-object of a raw record. -/
structure AssigneeInfo where
  full_name : Option String
deriving DecidableEq

/-- A raw work-item record as returned by the backend (user story, task or
issue), with exactly the keys the Python code reads. -/
structure RItem where
  subject : String
  status_extra_info : Option StatusInfo
  assigned_to_extra_info : Option AssigneeInfo
  created_date : Option String
  modified_date : Option String
  finished_date : Option String
  is_closed : Bool
  total_points : Option Int
  issue_type : Option String
deriving DecidableEq

/-- Python string truthiness for an optional string field: the empty string
and an absent value are both falsy. -/
def strOrNone : Option String → Option String
  | some s => if s = "" then none else some s
  | none => none

/-- Outcome of one HTTP GET against a collection endpoint: a response with a
status code and (when the body was a parseable JSON array) a body, or a
raised exception (transport error). -/
inductive FetchOut where
  | resp (status : Nat) (body : Option (List RItem))
  | exn
deriving DecidableEq

/-- A collection endpoint of the backend, as a function of the optional page
query parameter of the GET request (none = no page parameter sent). -/
abbrev Backend := Option Nat → FetchOut

/-- TaigaAPI.get_user_stories: a single GET with params {project: id} and no
page parameter; body on status 200, empty list otherwise. -/
def get_user_stories (backend : Backend) : List RItem :=
  match backend none with
  | .resp s body => if s = 200 then body.getD [] else []
  | .exn => []

/-- TaigaAPI.get_tasks: same single-request shape as get_user_stories. -/
def get_tasks (backend : Backend) : List RItem :=
  match backend none with
  | .resp s body => if s = 200 then body.getD [] else []
  | .exn => []

/-- TaigaAPI.get_issues: same single-request shape as get_user_stories. -/
def get_issues (backend : Backend) : List RItem :=
  match backend none with
  | .resp s body => if s = 200 then body.getD [] else []
  | .exn => []

/-- The body the backend serves for an explicit page number (claim side:
used to state what a paginating fetcher would have collected). -/
def pageBody (backend : Backend) (p : Nat) : List RItem :=
  match backend (some p) with
  | .resp s body => if s = 200 then body.getD [] else []
  | .exn => []

/-- Concatenation of the bodies of pages 1..n of a backend (claim side). -/
def pagesConcat (backend : Backend) (n : Nat) : List RItem :=
  ((List.range n).map (fun k => pageBody backend (k + 1))).flatten

/-- JSON body of the auth endpoint response. -/
structure AuthBody where
  auth_token : Option String
deriving DecidableEq

/-- Outcome of the POST to the auth endpoint. -/
inductive AuthNet where
  | resp (status : Nat) (body : Option AuthBody)
  | timeout
  | connError
deriving DecidableEq

/-- TaigaAPI.authenticate: returns the bearer token bound into the request
headers on success (some token), none on any failure.  Mirrors the Python
code: status must be 200, the body must parse, auth_token must be present
and truthy (a non-empty string). -/
def authenticate : AuthNet → Option String
  | .resp s body =>
    if s = 200 then
      match body with
      | some b =>
        match b.auth_token with
        | some t => if t = "" then none else some t
        | none => none
      | none => none
    else none
  | .timeout => none
  | .connError => none

/-- A project-metadata JSON object, kept abstract as key/value pairs; the
Python code only tests its truthiness (empty dict is falsy). -/
abbrev ProjBody := List (String × String)

/-- Outcome of the GET of the project endpoint. -/
inductive ProjNet where
  | resp (status : Nat) (body : Option ProjBody)
  | timeout
  | connError
deriving DecidableEq

/-- TaigaAPI.get_project_data: the parsed body on status 200, none on any
non-200 status (404, 403, other) or transport/parse failure. -/
def get_project_data : ProjNet → Option ProjBody
  | .resp s body => if s = 200 then body else none
  | .timeout => none
  | .connError => none

/-- Status name used by calculate_metrics:
item.get('status_extra_info', {}).get('name', 'N/A'). -/
def statusNameOf (it : RItem) : String :=
  match it.status_extra_info with
  | some si => si.name.getD "N/A"
  | none => "N/A"

/-- Assignee display name used by main:
x.get('full_name', 'N/A') if x else 'N/A'. -/
def assignedNameOf (it : RItem) : String :=
  match it.assigned_to_extra_info with
  | some a => a.full_name.getD "N/A"
  | none => "N/A"

/-- One Python dict-counter update: m[s] = m.get(s, 0) + 1, preserving
insertion order of keys. -/
def incKey : List (String × Nat) → String → List (String × Nat)
  | [], s => [(s, 1)]
  | kv :: rest, s => if kv.1 = s then (kv.1, kv.2 + 1) :: rest else kv :: incKey rest s

/-- Count recorded for a key in a dict-counter (0 when the key is absent). -/
def lookupCount : List (String × Nat) → String → Nat
  | [], _ => 0
  | kv :: rest, s => if kv.1 = s then kv.2 else lookupCount rest s

/-- The per-status count map built by the loops in calculate_metrics. -/
def statusCounts (items : List RItem) : List (String × Nat) :=
  items.foldl (fun m it => incKey m (statusNameOf it)) []

/-- Whole-day span between two parsed instants: (b - a).days of the Python
timedelta, i.e. floor division of the second difference by 86400. -/
def daySpan (a b : Int) : Int := Int.fdiv (b - a) 86400

/-- calculate_cycle_times: for each item with truthy created_date and
finished_date whose dates both parse, the day span finished - created,
appended only when non-negative; parse failures skip the item. -/
def calculate_cycle_times (parse : String → Option Int) (items : List RItem) : List Int :=
  items.filterMap (fun it =>
    match strOrNone it.created_date with
    | none => none
    | some cs =>
      match strOrNone it.finished_date with
      | none => none
      | some fs =>
        match parse cs with
        | none => none
        | some c =>
          match parse fs with
          | none => none
          | some f => if 0 ≤ daySpan c f then some (daySpan c f) else none)

/-- calculate_lead_times: as calculate_cycle_times but with modified_date in
place of finished_date. -/
def calculate_lead_times (parse : String → Option Int) (items : List RItem) : List Int :=
  items.filterMap (fun it =>
    match strOrNone it.created_date with
    | none => none
    | some cs =>
      match strOrNone it.modified_date with
      | none => none
      | some ms =>
        match parse cs with
        | none => none
        | some c =>
          match parse ms with
          | none => none
          | some m => if 0 ≤ daySpan c m then some (daySpan c m) else none)

/-- p occurs in s starting at its head. -/
def headMatch : List Char → List Char → Bool
  | [], _ => true
  | _ :: _, [] => false
  | a :: ps, b :: ss => a == b && headMatch ps ss

/-- p occurs somewhere in s (Python operator in for strings). -/
def hasSub (p : List Char) : List Char → Bool
  | [] => headMatch p []
  | c :: rest => headMatch p (c :: rest) || hasSub p rest

/-- The bug test of calculate_bugs_ratio:
'bug' in issue.get('type', '').lower(). -/
def isBugType (it : RItem) : Bool :=
  hasSub "bug".toList ((it.issue_type.getD "").toLower).toList

/-- calculate_bugs_ratio: percentage of issues whose type mentions bug;
0 for the empty collection (guarded before the division). -/
def calculate_bugs_ratio (issues : List RItem) : Rat :=
  if issues = [] then 0
  else ((issues.countP isBugType : Rat) / (issues.length : Rat)) * 100

/-- calculate_completion_rate: percentage of closed user stories; 0 for the
empty collection. -/
def calculate_completion_rate (user_stories : List RItem) : Rat :=
  if user_stories = [] then 0
  else ((user_stories.countP (fun us => us.is_closed) : Rat) / (user_stories.length : Rat)) * 100

/-- The parsed completion instant collected by calculate_throughput for one
item: present when the item is closed, its finished_date is truthy and the
date parses. -/
def finishedStamp (parse : String → Option Int) (it : RItem) : Option Int :=
  if it.is_closed then
    match strOrNone it.finished_date with
    | some s => parse s
    | none => none
  else none

/-- calculate_throughput: number of completion instants in the trailing
7-day window [now - 7 days, now]; the reference instant now is captured
once and the same cutoff is compared against every item. -/
def calculate_throughput (parse : String → Option Int) (user_stories tasks : List RItem)
    (now : Int) : Nat :=
  let completed := (user_stories ++ tasks).filterMap (finishedStamp parse)
  if completed = [] then 0
  else (completed.filter (fun d => decide (now - 7 * 86400 ≤ d))).length

/-- Loop body of calculate_velocity: skip a falsy (absent, null or zero)
total_points, otherwise add to total and, when the story is closed, to
completed. -/
def velocityStep (acc : Int × Int) (us : RItem) : Int × Int :=
  match us.total_points with
  | some p =>
    if p = 0 then acc
    else (acc.1 + p, if us.is_closed then acc.2 + p else acc.2)
  | none => acc

/-- calculate_velocity: (total_points, completed_points) accumulated over
the user stories. -/
def calculate_velocity (user_stories : List RItem) : Int × Int :=
  user_stories.foldl velocityStep (0, 0)

/-- The metrics record assembled by calculate_metrics. -/
structure Metrics where
  total_user_stories : Nat
  total_tasks : Nat
  total_issues : Nat
  user_stories_by_status : List (String × Nat)
  tasks_by_status : List (String × Nat)
  issues_by_status : List (String × Nat)
  cycle_times : List Int
  lead_times : List Int
  bugs_ratio : Rat
  completion_rate : Rat
  throughput : Nat
  velocity : Int × Int
deriving DecidableEq

/-- calculate_metrics: assembles every metric from the three collections.
project_data is accepted (as in the source) but never read; now is the
reference instant captured for the throughput window. -/
def calculate_metrics (parse : String → Option Int) (project_data : ProjBody)
    (user_stories tasks issues : List RItem) (now : Int) : Metrics :=
  { total_user_stories := user_stories.length
    total_tasks := tasks.length
    total_issues := issues.length
    user_stories_by_status := statusCounts user_stories
    tasks_by_status := statusCounts tasks
    issues_by_status := statusCounts issues
    cycle_times := calculate_cycle_times parse (user_stories ++ tasks)
    lead_times := calculate_lead_times parse (user_stories ++ tasks)
    bugs_ratio := calculate_bugs_ratio issues
    completion_rate := calculate_completion_rate user_stories
    throughput := calculate_throughput parse user_stories tasks now
    velocity := calculate_velocity user_stories }

/-- The network environment one fetch cycle runs against. -/
structure FetchEnv where
  auth : AuthNet
  project : ProjNet
  userstories : Backend
  tasks : Backend
  issues : Backend

/-- The record returned by a successful fetch_and_process_data cycle. -/
structure DataRecord where
  project_data : ProjBody
  user_stories : List RItem
  tasks : List RItem
  issues : List RItem
  metrics : Metrics
  last_update : Int
deriving DecidableEq

/-- fetch_and_process_data: authenticate, look up the project (a falsy
result is fatal), then fetch the three collections (each degrading to the
empty list on its own failure) and compute the metrics. -/
def fetch_and_process_data (parse : String → Option Int) (env : FetchEnv)
    (now : Int) : Option DataRecord :=
  if (authenticate env.auth).isSome then
    match get_project_data env.project with
    | some pd =>
      if pd = [] then none
      else
        some { project_data := pd
               user_stories := get_user_stories env.userstories
               tasks := get_tasks env.tasks
               issues := get_issues env.issues
               metrics := calculate_metrics parse pd (get_user_stories env.userstories)
                 (get_tasks env.tasks) (get_issues env.issues) now
               last_update := now }
    | none => none
  else none

/-- Modelled from the spec: the repository source has no flowback/history
code; section 4.5 describes a history event as carrying an optional status
transition (fromStatusId, toStatusId). -/
structure HistoryEvent where
  transition : Option (Nat × Nat)

/-- Modelled from the spec: the transitions of the event collection whose
two endpoint status identifiers both resolve in the ordinal map, as ordinal
pairs (origin, destination). -/
def resolvedTransitions (ord : Nat → Option Int) (events : List HistoryEvent) :
    List (Int × Int) :=
  events.filterMap (fun e =>
    match e.transition with
    | some ft =>
      match ord ft.1, ord ft.2 with
      | some a, some b => some (a, b)
      | _, _ => none
    | none => none)

/-- Modelled from the spec: flowback rate = 100 * regressions /
totalResolvedTransitions, a regression being a resolved transition whose
destination ordinal is strictly below its origin ordinal; 0 when no
resolved transition exists (division by zero guarded explicitly). -/
def flowback_rate (ord : Nat → Option Int) (events : List HistoryEvent) : Rat :=
  if (resolvedTransitions ord events).length = 0 then 0
  else 100 * ((((resolvedTransitions ord events).filter
      (fun p => decide (p.2 < p.1))).length : Rat)
    / ((resolvedTransitions ord events).length : Rat))

/-- Claim-side predicate for the throughput window: the item is closed and
its completion instant parses into the trailing 7-day window ending at now. -/
def inWindow (parse : String → Option Int) (now : Int) (it : RItem) : Bool :=
  it.is_closed &&
    (match strOrNone it.finished_date with
     | some s =>
       match parse s with
       | some t => decide (now - 7 * 86400 ≤ t)
       | none => false
     | none => false)

/-- Claim-side cycle-time candidate: the whole-day span for an item having
both dates (truthy and parseable), before the non-negativity filter. -/
def cycleDiffDays (parse : String → Option Int) (it : RItem) : Option Int :=
  match strOrNone it.created_date with
  | none => none
  | some cs =>
    match strOrNone it.finished_date with
    | none => none
    | some fs =>
      match parse cs with
      | none => none
      | some c =>
        match parse fs with
        | none => none
        | some f => some (daySpan c f)

/-- A raw record with every optional field absent (all defaults). -/
def item1 : RItem :=
  { subject := "a", status_extra_info := none, assigned_to_extra_info := none,
    created_date := none, modified_date := none, finished_date := none,
    is_closed := false, total_points := none, issue_type := none }

/-- A second distinct raw record. -/
def item2 : RItem := { item1 with subject := "b" }

/-- A synthetic backend with two non-empty pages (page 1 also served when no
page parameter is sent, as a paginated backend does) and empty pages after. -/
def twoPageBackend : Backend := fun page =>
  match page with
  | none => .resp 200 (some [item1])
  | some 1 => .resp 200 (some [item1])
  | some 2 => .resp 200 (some [item2])
  | some _ => .resp 200 (some [])

/-- A backend whose only answer is a server error with no parseable body. -/
def errBackend : Backend := fun _ => .resp 500 none

/-- A parse environment used by the concrete witnesses: the string c parses
to instant 0 and the string d to instant 86400; everything else fails. -/
def wParse : String → Option Int :=
  fun s => if s = "c" then some 0 else if s = "d" then some 86400 else none

/-- A closed item created at instant 0 and finished at instant 86400
(under wParse). -/
def doneItem : RItem :=
  { item1 with is_closed := true, created_date := some "c", finished_date := some "d" }

/-- A status-ordinal map for the flowback witnesses: Backlog = 0, Done = 3. -/
def ordW : Nat → Option Int :=
  fun n => if n = 0 then some 0 else if n = 3 then some 3 else none

/-- One history event transitioning Done (id 3) back to Backlog (id 0). -/
def evW : List HistoryEvent := [{ transition := some (3, 0) }]

/-- A fetch environment whose auth and project lookups succeed but whose
tasks endpoint raises a transport error. -/
def okEnv : FetchEnv :=
  { auth := .resp 200 (some { auth_token := some "tok" })
    project := .resp 200 (some [("name", "proj")])
    userstories := fun _ => .resp 200 (some [item1])
    tasks := fun _ => .exn
    issues := fun _ => .resp 200 (some []) }

/-- A closed user story worth 3 story points. -/
def ptsItem : RItem := { item1 with total_points := some 3, is_closed := true }

/-! Helper lemmas shared by the claim theorems. -/

theorem lookupCount_incKey_self (m : List (String × Nat)) (s : String) :
    lookupCount (incKey m s) s = lookupCount m s + 1 := by
  induction m with
  | nil => simp [incKey, lookupCount]
  | cons kv rest ih =>
    by_cases h : kv.1 = s
    · simp [incKey, lookupCount, h]
    · simp [incKey, lookupCount, h, ih]

theorem lookupCount_incKey_ne (m : List (String × Nat)) (k s : String) (h : k ≠ s) :
    lookupCount (incKey m k) s = lookupCount m s := by
  induction m with
  | nil => simp [incKey, lookupCount, h]
  | cons kv rest ih =>
    by_cases hk : kv.1 = k
    · simp [incKey, lookupCount, hk, h]
    · simp [incKey, lookupCount, hk, ih]

theorem lookupCount_foldl (items : List RItem) (m0 : List (String × Nat)) (s : String) :
    lookupCount (items.foldl (fun m it => incKey m (statusNameOf it)) m0) s
      = lookupCount m0 s + items.countP (fun it => statusNameOf it == s) := by
  induction items generalizing m0 with
  | nil => simp
  | cons it rest ih =>
    rw [List.foldl_cons, ih, List.countP_cons]
    by_cases h : statusNameOf it = s
    · rw [h, lookupCount_incKey_self]
      simp [h]
      omega
    · rw [lookupCount_incKey_ne _ _ _ h]
      simp [h]

theorem lookupCount_statusCounts (items : List RItem) (s : String) :
    lookupCount (statusCounts items) s = items.countP (fun it => statusNameOf it == s) := by
  simpa [lookupCount] using lookupCount_foldl items [] s

theorem length_filter_filterMap {α β : Type} (f : α → Option β) (p : β → Bool) (l : List α) :
    ((l.filterMap f).filter p).length = l.countP (fun a => ((f a).map p).getD false) := by
  induction l with
  | nil => rfl
  | cons a rest ih =>
    rw [List.filterMap_cons, List.countP_cons]
    cases hfa : f a with
    | none => simp [ih, hfa]
    | some b =>
      rw [List.filter_cons]
      by_cases hp : p b
      · simp [hp, ih, hfa]
      · simp [hp, ih, hfa]

theorem authenticate_eq_some (r : AuthNet) (t : String) :
    authenticate r = some t ↔
      ∃ b, r = AuthNet.resp 200 (some b) ∧ b.auth_token = some t ∧ t ≠ "" := by
  constructor
  · intro h
    cases r with
    | timeout => simp [authenticate] at h
    | connError => simp [authenticate] at h
    | resp s body =>
      by_cases hs : s = 200
      · subst hs
        cases body with
        | none => simp [authenticate] at h
        | some b =>
          cases hb : b.auth_token with
          | none => simp [authenticate, hb] at h
          | some u =>
            by_cases hu : u = ""
            · simp [authenticate, hb, hu] at h
            · simp only [authenticate, hb, if_neg hu, if_pos rfl, reduceIte] at h
              obtain rfl : u = t := Option.some.inj h
              exact ⟨b, rfl, hb, hu⟩
      · simp [authenticate, hs] at h
  · rintro ⟨b, rfl, hb, ht⟩
    simp [authenticate, hb, ht]

/-! Claim theorems and their witnesses. -/

/-- C1 counterexample: on a synthetic backend serving 2 non-empty pages the
collection fetch does not return the concatenation of the pages — it issues
no paginated requests and yields only the first (default) page. -/
theorem get_user_stories_no_pagination_cex :
    get_user_stories twoPageBackend = [item1] ∧
    pagesConcat twoPageBackend 2 = [item1, item2] ∧
    get_user_stories twoPageBackend ≠ pagesConcat twoPageBackend 2 := by
  refine ⟨rfl, by decide, by decide⟩

/-- C1 (amended): each collection fetch issues exactly one GET request with
no page parameter — the result depends only on the backend's response to
that single request — and returns the JSON array body on status 200 and the
empty list on any non-success status, unparseable body, or transport error,
so it terminates after one request and never concatenates further pages. -/
theorem fetch_single_request_spec (b b' : Backend) :
    (b none = b' none → get_user_stories b = get_user_stories b'
      ∧ get_tasks b = get_tasks b' ∧ get_issues b = get_issues b') ∧
    (∀ body, b none = .resp 200 (some body) →
      get_user_stories b = body ∧ get_tasks b = body ∧ get_issues b = body) ∧
    (∀ s body, s ≠ 200 → b none = .resp s body →
      get_user_stories b = [] ∧ get_tasks b = [] ∧ get_issues b = []) ∧
    (b none = .resp 200 none → get_user_stories b = [] ∧ get_tasks b = [] ∧ get_issues b = []) ∧
    (b none = .exn → get_user_stories b = [] ∧ get_tasks b = [] ∧ get_issues b = []) := by
  refine ⟨?_, ?_, ?_, ?_, ?_⟩ <;>
    simp only [get_user_stories, get_tasks, get_issues]
  · intro h; rw [h]; exact ⟨rfl, rfl, rfl⟩
  · intro body h; rw [h]; simp
  · intro s body hs h; rw [h]; simp [hs]
  · intro h; rw [h]; simp
  · intro h; rw [h]; exact ⟨rfl, rfl, rfl⟩

/-- C1 witness: the amended theorem applied to the two-page backend (status
200) and to an erroring backend (status 500). -/
theorem fetch_single_request_spec_witness :
    get_user_stories twoPageBackend = [item1] ∧ get_tasks errBackend = [] :=
  ⟨((fetch_single_request_spec twoPageBackend twoPageBackend).2.1 [item1] rfl).1,
   ((fetch_single_request_spec errBackend errBackend).2.2.1 500 none (by decide) rfl).2.1⟩

/-- C2: for the empty input collection every metric function returns a zero
or empty result without failing: empty cycle-time and lead-time samples,
zero bugs ratio, zero completion rate, zero throughput, zero velocity and
empty per-status count maps. -/
theorem metrics_empty_input (parse : String → Option Int) (pd : ProjBody) (now : Int) :
    calculate_metrics parse pd [] [] [] now =
      { total_user_stories := 0, total_tasks := 0, total_issues := 0,
        user_stories_by_status := [], tasks_by_status := [], issues_by_status := [],
        cycle_times := [], lead_times := [], bugs_ratio := 0, completion_rate := 0,
        throughput := 0, velocity := (0, 0) } ∧
    calculate_cycle_times parse [] = [] ∧
    calculate_lead_times parse [] = [] ∧
    calculate_bugs_ratio [] = 0 ∧
    calculate_completion_rate [] = 0 ∧
    calculate_throughput parse [] [] now = 0 ∧
    calculate_velocity [] = (0, 0) ∧
    statusCounts [] = [] :=
  ⟨rfl, rfl, rfl, rfl, rfl, rfl, rfl, rfl⟩

/-- C7 counterexample: a 200 response whose JSON body does contain the token
field, but with an empty-string value, is rejected by authenticate (Python
truthiness of the extracted token), so success is not equivalent to the mere
presence of the token field. -/
theorem authenticate_token_field_cex :
    authenticate (AuthNet.resp 200 (some { auth_token := some "" })) = none ∧
    ({ auth_token := some "" } : AuthBody).auth_token.isSome = true :=
  ⟨rfl, rfl⟩

/-- C7 (amended): authenticate succeeds and binds the bearer token iff the
auth endpoint responds with status 200 and a parseable JSON body whose token
field holds a non-empty token; the bound token is exactly the body's token;
it fails (with a single request, no retry) on a non-200 status, a missing or
empty token field, or transport failure (timeout, connection error). -/
theorem authenticate_spec (r : AuthNet) :
    ((authenticate r).isSome ↔
      ∃ b t, r = AuthNet.resp 200 (some b) ∧ b.auth_token = some t ∧ t ≠ "") ∧
    (∀ t, authenticate r = some t →
      ∃ b, r = AuthNet.resp 200 (some b) ∧ b.auth_token = some t ∧ t ≠ "") ∧
    authenticate AuthNet.timeout = none ∧ authenticate AuthNet.connError = none := by
  refine ⟨?_, ?_, rfl, rfl⟩
  · constructor
    · intro h
      obtain ⟨t, ht⟩ := Option.isSome_iff_exists.mp h
      obtain ⟨b, hr, hb, hne⟩ := (authenticate_eq_some r t).mp ht
      exact ⟨b, t, hr, hb, hne⟩
    · rintro ⟨b, t, rfl, hb, hne⟩
      rw [(authenticate_eq_some _ t).mpr ⟨b, rfl, hb, hne⟩]
      rfl
  · intro t ht
    exact (authenticate_eq_some r t).mp ht

/-- C7 witness: the amended theorem applied to a successful 200 response
carrying a non-empty token. -/
theorem authenticate_spec_witness :
    ∃ b, AuthNet.resp 200 (some { auth_token := some "tok" }) = AuthNet.resp 200 (some b) ∧
      b.auth_token = some "tok" ∧ "tok" ≠ "" :=
  (authenticate_spec (AuthNet.resp 200 (some { auth_token := some "tok" }))).2.1 "tok" rfl

/-- C9: the metrics computation is deterministic in its inputs and the
single reference instant — the same collections and the same reference
instant yield the identical metrics record, and the record's throughput is
exactly the throughput computed at that instant. -/
theorem metrics_reference_deterministic (parse : String → Option Int) (pd : ProjBody)
    (us tasks issues : List RItem) (now now' : Int) (h : now = now') :
    calculate_metrics parse pd us tasks issues now
        = calculate_metrics parse pd us tasks issues now' ∧
    (calculate_metrics parse pd us tasks issues now).throughput
        = calculate_throughput parse us tasks now := by
  subst h
  exact ⟨rfl, rfl⟩

/-- C9 witness: determinism at a concrete instant. -/
theorem metrics_reference_deterministic_witness :
    calculate_metrics (fun _ => none) [] [] [] [] 0
      = calculate_metrics (fun _ => none) [] [] [] [] 0 :=
  (metrics_reference_deterministic (fun _ => none) [] [] [] [] 0 0 rfl).1

theorem inWindow_eq (parse : String → Option Int) (now : Int) (it : RItem) :
    inWindow parse now it
      = ((finishedStamp parse it).map (fun d => decide (now - 7 * 86400 ≤ d))).getD false := by
  cases hc : it.is_closed with
  | false => simp [inWindow, finishedStamp, hc]
  | true =>
    cases hfd : strOrNone it.finished_date with
    | none => simp [inWindow, finishedStamp, hc, hfd]
    | some s =>
      cases hps : parse s with
      | none => simp [inWindow, finishedStamp, hc, hfd, hps]
      | some t => simp [inWindow, finishedStamp, hc, hfd, hps]

theorem filterMap_guard {α : Type} (g : α → Option Int) (l : List α) :
    (l.filterMap (fun a =>
        match g a with
        | some d => if 0 ≤ d then some d else none
        | none => none))
      = (l.filterMap g).filter (fun d => decide (0 ≤ d)) := by
  induction l with
  | nil => rfl
  | cons a rest ih =>
    rw [List.filterMap_cons, List.filterMap_cons]
    cases hg : g a with
    | none => simp [hg, ih]
    | some d =>
      by_cases hd : 0 ≤ d
      · simp [hg, hd, List.filter_cons, ih]
      · simp [hg, hd, List.filter_cons, ih]

theorem daySpan_nonneg_iff (c f : Int) : 0 ≤ daySpan c f ↔ 0 ≤ f - c := by
  unfold daySpan
  rw [Int.fdiv_eq_ediv _ (by norm_num)]
  omega

theorem velocity_foldl_le (stories : List RItem) :
    ∀ acc : Int × Int, (∀ us ∈ stories, ∀ p, us.total_points = some p → 0 ≤ p) →
      acc.2 ≤ acc.1 →
      (stories.foldl velocityStep acc).2 ≤ (stories.foldl velocityStep acc).1 := by
  induction stories with
  | nil => intro acc _ hacc; simpa using hacc
  | cons us rest ih =>
    intro acc hall hacc
    rw [List.foldl_cons]
    apply ih
    · intro u hu p hp
      exact hall u (List.mem_cons_of_mem _ hu) p hp
    · have hp0 : ∀ p, us.total_points = some p → 0 ≤ p :=
        hall us (List.mem_cons_self _ _)
      unfold velocityStep
      cases htp : us.total_points with
      | none => simpa using hacc
      | some p =>
        have hp : 0 ≤ p := hp0 p htp
        by_cases hz : p = 0
        · simpa [hz] using hacc
        · cases hc : us.is_closed <;> simp [hz, hc] <;> omega

/-- C3: throughput counts exactly the items that are closed and whose
completion instant parses into the trailing 7-day window ending at the
reference instant; the boundary at exactly 7 days is included, 7 days plus
one second is excluded, and an empty completed set yields 0. -/
theorem calculate_throughput_window (parse : String → Option Int)
    (us tasks : List RItem) (now : Int) :
    calculate_throughput parse us tasks now = (us ++ tasks).countP (inWindow parse now) ∧
    (∀ it s, it.is_closed = true → it.finished_date = some s → s ≠ "" →
      parse s = some (now - 7 * 86400) → calculate_throughput parse [it] [] now = 1) ∧
    (∀ it s, it.is_closed = true → it.finished_date = some s → s ≠ "" →
      parse s = some (now - 7 * 86400 - 1) → calculate_throughput parse [it] [] now = 0) ∧
    calculate_throughput parse [] [] now = 0 := by
  refine ⟨?_, ?_, ?_, rfl⟩
  · simp only [calculate_throughput]
    by_cases hemp : (us ++ tasks).filterMap (finishedStamp parse) = []
    · rw [if_pos hemp]
      symm
      rw [List.countP_eq_zero]
      intro it hit
      have hnone := (List.filterMap_eq_nil_iff.mp hemp) it hit
      simp [inWindow_eq, hnone]
    · rw [if_neg hemp, length_filter_filterMap]
      apply List.countP_congr
      intro it _
      rw [inWindow_eq]
  · intro it s hc hf hs hp
    simp [calculate_throughput, finishedStamp, strOrNone, hc, hf, hs, hp]
  · intro it s hc hf hs hp
    simp [calculate_throughput, finishedStamp, strOrNone, hc, hf, hs, hp]
    omega

/-- C3 witness: the boundary case at exactly 7 days before the reference
instant is counted. -/
theorem calculate_throughput_window_witness :
    calculate_throughput wParse [doneItem] [] (86400 + 7 * 86400) = 1 :=
  (calculate_throughput_window wParse [doneItem] [] (86400 + 7 * 86400)).2.1 doneItem "d"
    rfl rfl (by decide) (by decide)

/-- C4: the cycle-time samples are exactly the whole-day spans of the items
with both (truthy, parseable) dates, kept only when non-negative; the
sample list never contains a negative value, and a span is non-negative
exactly when the underlying date difference is. -/
theorem calculate_cycle_times_spec (parse : String → Option Int) (items : List RItem) :
    calculate_cycle_times parse items
      = (items.filterMap (cycleDiffDays parse)).filter (fun d => decide (0 ≤ d)) ∧
    (∀ x ∈ calculate_cycle_times parse items, 0 ≤ x) ∧
    (∀ c f : Int, 0 ≤ daySpan c f ↔ 0 ≤ f - c) := by
  have hmain : calculate_cycle_times parse items
      = (items.filterMap (cycleDiffDays parse)).filter (fun d => decide (0 ≤ d)) := by
    rw [← filterMap_guard (cycleDiffDays parse) items]
    unfold calculate_cycle_times
    apply List.filterMap_congr
    intro it _
    unfold cycleDiffDays
    cases h1 : strOrNone it.created_date with
    | none => simp [h1]
    | some cs =>
      cases h2 : strOrNone it.finished_date with
      | none => simp [h1, h2]
      | some fs =>
        cases h3 : parse cs with
        | none => simp [h1, h2, h3]
        | some c =>
          cases h4 : parse fs with
          | none => simp [h1, h2, h3, h4]
          | some f => simp [h1, h2, h3, h4]
  refine ⟨hmain, ?_, daySpan_nonneg_iff⟩
  intro x hx
  rw [hmain] at hx
  have := List.of_mem_filter hx
  simpa using this

/-- C4 witness: a one-day cycle time is produced and is non-negative. -/
theorem calculate_cycle_times_spec_witness :
    calculate_cycle_times wParse [doneItem] = [1] ∧ (0 : Int) ≤ 1 :=
  ⟨by decide, (calculate_cycle_times_spec wParse [doneItem]).2.1 1 (by decide)⟩

/-- C5: the flowback rate always lies between 0 and 100; it is exactly 0
when no resolved transition exists and otherwise equals 100 * regressions /
totalResolvedTransitions. -/
theorem flowback_rate_bounds (ord : Nat → Option Int) (events : List HistoryEvent) :
    0 ≤ flowback_rate ord events ∧ flowback_rate ord events ≤ 100 ∧
    (resolvedTransitions ord events = [] → flowback_rate ord events = 0) ∧
    (resolvedTransitions ord events ≠ [] →
      flowback_rate ord events
        = 100 * ((((resolvedTransitions ord events).filter
            (fun p => decide (p.2 < p.1))).length : Rat)
          / ((resolvedTransitions ord events).length : Rat))) := by
  by_cases hemp : (resolvedTransitions ord events).length = 0
  · have h0 : flowback_rate ord events = 0 := by
      unfold flowback_rate
      rw [if_pos hemp]
    exact ⟨by rw [h0], by rw [h0]; norm_num, fun _ => h0,
      fun hne => absurd (List.length_eq_zero.mp hemp) hne⟩
  · have hpos : 0 < (resolvedTransitions ord events).length := Nat.pos_of_ne_zero hemp
    have hval : flowback_rate ord events
        = 100 * ((((resolvedTransitions ord events).filter
            (fun p => decide (p.2 < p.1))).length : Rat)
          / ((resolvedTransitions ord events).length : Rat)) := by
      unfold flowback_rate
      rw [if_neg hemp]
    have hcast : (0 : Rat) < ((resolvedTransitions ord events).length : Rat) := by
      exact_mod_cast hpos
    have hle : ((resolvedTransitions ord events).filter
        (fun p => decide (p.2 < p.1))).length ≤ (resolvedTransitions ord events).length :=
      List.length_filter_le _ _
    have hfrac : ((((resolvedTransitions ord events).filter
        (fun p => decide (p.2 < p.1))).length : Rat)
          / ((resolvedTransitions ord events).length : Rat)) ≤ 1 := by
      rw [div_le_one hcast]
      exact_mod_cast hle
    refine ⟨?_, ?_, ?_, fun _ => hval⟩
    · rw [hval]
      positivity
    · rw [hval]
      calc 100 * ((((resolvedTransitions ord events).filter
            (fun p => decide (p.2 < p.1))).length : Rat)
          / ((resolvedTransitions ord events).length : Rat))
          ≤ 100 * 1 := by
            exact mul_le_mul_of_nonneg_left hfrac (by norm_num)
        _ = 100 := mul_one 100
    · intro h
      exact absurd (by rw [h]; rfl : (resolvedTransitions ord events).length = 0) hemp

/-- C5 witness: with no events the rate is 0; with one regression out of one
resolved transition the formula applies (yielding 100). -/
theorem flowback_rate_bounds_witness :
    flowback_rate ordW [] = 0 ∧
    flowback_rate ordW evW
      = 100 * ((((resolvedTransitions ordW evW).filter
          (fun p => decide (p.2 < p.1))).length : Rat)
        / ((resolvedTransitions ordW evW).length : Rat)) :=
  ⟨(flowback_rate_bounds ordW []).2.2.1 rfl,
   (flowback_rate_bounds ordW evW).2.2.2 (by decide)⟩

/-- C6: a record whose status or assignee sub-object is absent is normalized
with the sentinel N/A rather than failing; the metrics status map is the
dict-counter over these sentinel names, in which such a record is counted
under the sentinel key rather than dropped. -/
theorem normalize_sentinel_counts (items : List RItem) (r : RItem)
    (hs : r.status_extra_info = none) (ha : r.assigned_to_extra_info = none) :
    statusNameOf r = "N/A" ∧ assignedNameOf r = "N/A" ∧
    (∀ (parse : String → Option Int) (pd : ProjBody) (tasks issues : List RItem) (now : Int),
      (calculate_metrics parse pd (items ++ [r]) tasks issues now).user_stories_by_status
        = statusCounts (items ++ [r])) ∧
    lookupCount (statusCounts (items ++ [r])) "N/A"
      = (items ++ [r]).countP (fun it => statusNameOf it == "N/A") ∧
    0 < lookupCount (statusCounts (items ++ [r])) "N/A" := by
  have hname : statusNameOf r = "N/A" := by simp [statusNameOf, hs]
  refine ⟨hname, by simp [assignedNameOf, ha], fun _ _ _ _ _ => rfl,
    lookupCount_statusCounts _ _, ?_⟩
  rw [lookupCount_statusCounts, List.countP_pos_iff]
  exact ⟨r, List.mem_append_right _ (List.mem_singleton.mpr rfl), by simp [hname]⟩

/-- C6 witness: the sentinel normalization and counting at a concrete record
with both sub-objects absent. -/
theorem normalize_sentinel_counts_witness :
    statusNameOf item1 = "N/A" ∧ 0 < lookupCount (statusCounts ([] ++ [item1])) "N/A" :=
  ⟨(normalize_sentinel_counts [] item1 rfl rfl).1,
   (normalize_sentinel_counts [] item1 rfl rfl).2.2.2.2⟩

/-- C8: a failed project lookup (or failed auth) aborts the whole cycle; a
successful cycle returns the record assembling each resource as fetched
independently, so a tasks failure only empties the tasks collection while
user stories and the metrics record are still produced. -/
theorem fetch_cycle_partial_failure (parse : String → Option Int) (env : FetchEnv)
    (now : Int) :
    (get_project_data env.project = none → fetch_and_process_data parse env now = none) ∧
    ((authenticate env.auth).isSome = false → fetch_and_process_data parse env now = none) ∧
    (∀ pd, (authenticate env.auth).isSome = true → get_project_data env.project = some pd →
      pd ≠ [] →
      fetch_and_process_data parse env now = some
        { project_data := pd
          user_stories := get_user_stories env.userstories
          tasks := get_tasks env.tasks
          issues := get_issues env.issues
          metrics := calculate_metrics parse pd (get_user_stories env.userstories)
            (get_tasks env.tasks) (get_issues env.issues) now
          last_update := now }) ∧
    (env.tasks none = FetchOut.exn → get_tasks env.tasks = []) ∧
    (∀ s body, s ≠ 200 → env.tasks none = FetchOut.resp s body → get_tasks env.tasks = []) := by
  refine ⟨?_, ?_, ?_, ?_, ?_⟩
  · intro h
    simp [fetch_and_process_data, h]
  · intro h
    simp [fetch_and_process_data, h]
  · intro pd hauth hpd hne
    simp [fetch_and_process_data, hauth, hpd, hne]
  · intro h
    simp [get_tasks, h]
  · intro s body hs h
    simp [get_tasks, h, hs]

/-- C8 witness: a cycle whose tasks endpoint raises still returns the record
with the fetched user stories and an empty tasks collection. -/
theorem fetch_cycle_partial_failure_witness :
    fetch_and_process_data wParse okEnv 0 = some
      { project_data := [("name", "proj")]
        user_stories := get_user_stories okEnv.userstories
        tasks := get_tasks okEnv.tasks
        issues := get_issues okEnv.issues
        metrics := calculate_metrics wParse [("name", "proj")]
          (get_user_stories okEnv.userstories) (get_tasks okEnv.tasks)
          (get_issues okEnv.issues) 0
        last_update := 0 } ∧
    get_tasks okEnv.tasks = [] :=
  ⟨(fetch_cycle_partial_failure wParse okEnv 0).2.2.1 [("name", "proj")] rfl rfl (by decide),
   (fetch_cycle_partial_failure wParse okEnv 0).2.2.2.1 rfl⟩

/-- C10: with every present total_points non-negative, the completed points
never exceed the total points, and the empty collection yields the zero
velocity record. -/
theorem calculate_velocity_bound (stories : List RItem)
    (h : ∀ us ∈ stories, ∀ p, us.total_points = some p → 0 ≤ p) :
    (calculate_velocity stories).2 ≤ (calculate_velocity stories).1 ∧
    calculate_velocity [] = (0, 0) :=
  ⟨velocity_foldl_le stories (0, 0) h (le_refl 0), rfl⟩

/-- C10 witness: the bound at a concrete single closed 3-point story. -/
theorem calculate_velocity_bound_witness :
    (calculate_velocity [ptsItem]).2 ≤ (calculate_velocity [ptsItem]).1 :=
  (calculate_velocity_bound [ptsItem] (by
    intro us hus p hp
    rw [List.mem_singleton] at hus
    subst hus
    have h3 : (3 : Int) = p := Option.some.inj hp
    omega)).1

end DashboardTaiga
